import Mathlib

/-!
Verification of the MSO-to-StormAudio filter converter (convert.py).

The program is a two-stage text parser followed by a template emitter:

  - extract_channel_blocks / extract_shared_sub_block split the document
    into blocks;
  - parse_filters_from_text splits a block into per-filter chunks, applies
    include/exclude type filtering and dispatches to
    parse_parametric_eq_parameters / parse_allpass_parameters;
  - write_storm_audio_format renders records into numbered output lines;
  - convert_mso_to_storm_audio sequences the above and decides which
    output files are written.

Modelling conventions, noted once here:

  - Python strings are modelled by Lean `String` (a packed `List Char`);
    positions are character indices, as in Python `str`.
  - Python `str.find` returning `-1` on failure is modelled by
    `Option Nat` (`none` for `-1`); the source's `!= -1` tests become
    `isSome` discriminations.
  - `str.lower` is modelled on ASCII letters (all phrases involved are
    ASCII); `str.strip` strips the six ASCII whitespace characters.
  - `re` patterns in the source are all of the shape
    literal-text followed by a greedy character class, or fixed
    line-anchored templates; they are modelled by direct scanning
    functions with the same leftmost-match, greedy semantics.
    `\d` is modelled as ASCII digits.
  - Numeric fields: the source converts every captured numeral with
    `float()` and only re-renders or copies it (no arithmetic), so a
    numeric field is modelled by its captured source text.  No claim
    verified here depends on the float round-trip.
  - File IO is modelled by returning the data that would be written:
    the emitter returns its per-filter output lines, the orchestrator
    returns the list of (file name, channel label, records) writes.
    Python dict access on a missing key (a KeyError crash) is modelled
    by the emitter returning `none`.
-/

/-- ASCII lowercasing of one character, the fragment of Python
`str.lower` exercised by the configuration phrases. -/
def lowerChar (c : Char) : Char :=
  if 'A' ≤ c && c ≤ 'Z' then Char.ofNat (c.toNat + 32) else c

/-- Whitespace characters stripped by Python `str.strip()`. -/
def isPySpace (c : Char) : Bool :=
  c = ' ' || c = '\t' || c = '\n' || c = '\r' || c = '\x0b' || c = '\x0c'

/-- Python `str.strip()` on a character list. -/
def pyStripL (s : List Char) : List Char :=
  ((s.dropWhile isPySpace).reverse.dropWhile isPySpace).reverse

/-- Python `sub in s` substring test (character lists). -/
def containsSubL (hay needle : List Char) : Bool :=
  if needle.isPrefixOf hay then true
  else
    match hay with
    | [] => false
    | _ :: t => containsSubL t needle

/-- Python `s.find(sub)` for a nonempty `sub`: index of the leftmost
occurrence, `none` standing for the source's `-1`. -/
def findSubL (hay needle : List Char) : Option Nat :=
  if needle.isPrefixOf hay then some 0
  else
    match hay with
    | [] => none
    | _ :: t => (findSubL t needle).map (fun n => n + 1)

/-- Python `s.split('\n')`: splits at every newline, keeping empty parts. -/
def splitOnNl : List Char → List (List Char)
  | [] => [[]]
  | c :: t =>
    if c = '\n' then [] :: splitOnNl t
    else
      match splitOnNl t with
      | h :: r => (c :: h) :: r
      | [] => [[c]]

/-- Python `'\n'.join(parts)` on character lists. -/
def joinNl : List (List Char) → List Char
  | [] => []
  | [p] => p
  | p :: r => p ++ '\n' :: joinNl r

/-- Leftmost match of the pattern literal-text-then-greedy-class, the
shape of every `re.search` in the source: at the first position where
`lit` is followed by at least one character satisfying `cls`, capture
the maximal run of `cls` characters after `lit` (greedy `+`).
`lit` is nonempty for every pattern in the source. -/
def searchCaptureL (lit : List Char) (cls : Char → Bool) : List Char → Option (List Char)
  | [] => none
  | c :: t =>
    if lit.isPrefixOf (c :: t) then
      match ((c :: t).drop lit.length).takeWhile cls with
      | [] => searchCaptureL lit cls t
      | d :: ds => some (d :: ds)
    else searchCaptureL lit cls t

/-- Python `sub in s` on strings. -/
def pyIn (needle hay : String) : Bool :=
  containsSubL hay.toList needle.toList

/-- Python `s.lower()` (ASCII fragment). -/
def pyLower (s : String) : String :=
  String.mk (s.toList.map lowerChar)

/-- Python `s.strip()` on strings. -/
def pyStrip (s : String) : String :=
  String.mk (pyStripL s.toList)

/-- Python `s.find(sub)` on strings (`none` models `-1`). -/
def pyFind (hay needle : String) : Option Nat :=
  findSubL hay.toList needle.toList

/-- Character class `[\d.]` of the frequency and Q capture groups. -/
def isDigitDot (c : Char) : Bool :=
  c.isDigit || c = '.'

/-- Character class `[-\d.]` of the gain capture group. -/
def isDigitDotMinus (c : Char) : Bool :=
  c = '-' || c.isDigit || c = '.'

/-- One parsed filter record, the Python dict built by the two
parameter parsers.  `gain`, `q_rbj`, `q_classic` are keys present only
in Parametric EQ records, hence `Option`; `none` models the key being
absent from the dict. -/
structure FilterData where
  name : String
  type : String
  freq : String
  gain : Option String
  q : String
  q_rbj : Option String
  q_classic : Option String
deriving DecidableEq

/-- Capture of `re.search(r'Parameter "Center freq \(Hz\)" = ([\d.]+)', ps)`. -/
def peqFreqCapture (ps : String) : Option String :=
  (searchCaptureL ("Parameter \"Center freq (Hz)\" = ").toList isDigitDot ps.toList).map String.mk

/-- Capture of `re.search(r'Parameter "Boost \(dB\)" = ([-\d.]+)', ps)`. -/
def peqGainCapture (ps : String) : Option String :=
  (searchCaptureL ("Parameter \"Boost (dB)\" = ").toList isDigitDotMinus ps.toList).map String.mk

/-- Capture of `re.search(r'Parameter "Q \(RBJ\)" = ([\d.]+)', ps)`. -/
def peqQrbjCapture (ps : String) : Option String :=
  (searchCaptureL ("Parameter \"Q (RBJ)\" = ").toList isDigitDot ps.toList).map String.mk

/-- Capture of `re.search(r'"Classic" Q = ([\d.]+)', ps)`. -/
def peqQclassicCapture (ps : String) : Option String :=
  (searchCaptureL ("\"Classic\" Q = ").toList isDigitDot ps.toList).map String.mk

/-- parse_parametric_eq_parameters: requires the center-frequency,
boost and RBJ-Q captures; the Classic-Q capture is optional and
defaults to the RBJ capture; `q` selects Classic exactly when
`q_type == 'classic'`. -/
def parse_parametric_eq_parameters (filter_name filter_type parameters q_type : String) :
    Option FilterData :=
  match peqFreqCapture parameters, peqGainCapture parameters, peqQrbjCapture parameters with
  | some freq, some gain, some q_rbj =>
    let q_classic :=
      match peqQclassicCapture parameters with
      | some c => c
      | none => q_rbj
    let q_value := if q_type = "classic" then q_classic else q_rbj
    some { name := filter_name, type := filter_type, freq := freq, gain := some gain,
           q := q_value, q_rbj := some q_rbj, q_classic := some q_classic }
  | _, _, _ => none

/-- Capture of `re.search(r'Parameter "Freq of 180 deg phase \(Hz\)" = ([\d.]+)', ps)`. -/
def apFreqCapture (ps : String) : Option String :=
  (searchCaptureL ("Parameter \"Freq of 180 deg phase (Hz)\" = ").toList isDigitDot ps.toList).map String.mk

/-- Capture of `re.search(r'Parameter "All-pass Q" = ([\d.]+)', ps)`. -/
def apQCapture (ps : String) : Option String :=
  (searchCaptureL ("Parameter \"All-pass Q\" = ").toList isDigitDot ps.toList).map String.mk

/-- parse_allpass_parameters: requires the 180-degree-phase frequency
and All-pass Q captures; the resulting dict has no gain or RBJ/Classic
Q keys. -/
def parse_allpass_parameters (filter_name filter_type parameters : String) :
    Option FilterData :=
  match apFreqCapture parameters, apQCapture parameters with
  | some freq, some q => some { name := filter_name, type := filter_type, freq := freq,
                                gain := none, q := q, q_rbj := none, q_classic := none }
  | _, _ => none

/-- Test for the split pattern `\n(?=FL\d+:)`: does this character list
begin with `FL`, one or more ASCII digits, then a colon? -/
def isFLColonHere (s : List Char) : Bool :=
  match s with
  | 'F' :: 'L' :: rest =>
    match rest.dropWhile Char.isDigit with
    | ':' :: _ => !(rest.takeWhile Char.isDigit).isEmpty
    | _ => false
  | _ => false

/-- `re.split(r'\n(?=FL\d+:)', text)`: split at every newline that is
immediately followed by an `FL<digits>:` tag; the newline is consumed,
the tag is kept by the lookahead. -/
def splitFilterBlocks : List Char → List (List Char)
  | [] => [[]]
  | c :: t =>
    if c = '\n' && isFLColonHere t then [] :: splitFilterBlocks t
    else
      match splitFilterBlocks t with
      | h :: r => (c :: h) :: r
      | [] => [[c]]

/-- `re.match(r'(FL\d+): (.+)', first_line)`: anchored at the start of
the line, returns the tag (group 1, without the colon) and the raw type
text (group 2, the nonempty remainder after the colon and space). -/
def matchFLHeader (line : List Char) : Option (List Char × List Char) :=
  match line with
  | 'F' :: 'L' :: rest =>
    let ds := rest.takeWhile Char.isDigit
    if ds.isEmpty then none
    else
      match rest.dropWhile Char.isDigit with
      | ':' :: ' ' :: r => if r.isEmpty then none else some ('F' :: 'L' :: ds, r)
      | _ => none
  | _ => none

/-- The include/exclude decision of parse_filters_from_text: the first
loop sets `should_include` when any include phrase occurs
case-insensitively in the type; the second loop clears it again when
any exclude phrase occurs, so exclusion always wins. -/
def should_include_type (filter_type : String) (included excluded : List String) : Bool :=
  (included.any fun t => pyIn (pyLower t) (pyLower filter_type)) &&
    !(excluded.any fun t => pyIn (pyLower t) (pyLower filter_type))

/-- Loop body of parse_filters_from_text for one chunk: skip blank or
headerless chunks, apply include/exclude filtering to the trimmed type,
then dispatch on case-sensitive containment of 'Parametric EQ', then
'All-Pass', in the type; any other type yields no record. -/
def processFilterBlock (q_type : String) (included excluded : List String)
    (block : List Char) : Option FilterData :=
  if (pyStripL block).isEmpty then none
  else
    match splitOnNl (pyStripL block) with
    | [] => none
    | first_line :: rest =>
      match matchFLHeader first_line with
      | none => none
      | some (tag, rawType) =>
        let filter_name := String.mk tag
        let filter_type := pyStrip (String.mk rawType)
        if !should_include_type filter_type included excluded then none
        else
          let parameters := String.mk (joinNl rest)
          if pyIn "Parametric EQ" filter_type then
            parse_parametric_eq_parameters filter_name filter_type parameters q_type
          else if pyIn "All-Pass" filter_type then
            parse_allpass_parameters filter_name filter_type parameters
          else none

/-- parse_filters_from_text: `None` defaults for the include and
exclude lists, chunk split, then one record attempt per chunk (a `None`
attempt appends nothing). -/
def parse_filters_from_text (text q_type : String)
    (included_types excluded_types : Option (List String)) : List FilterData :=
  let included := included_types.getD ["Parametric EQ"]
  let excluded := excluded_types.getD ["Gain Block", "Delay Block"]
  (splitFilterBlocks text.toList).filterMap (processFilterBlock q_type included excluded)

/-- extract_shared_sub_block: when both marker phrases occur, the
trimmed span from the position where the start phrase BEGINS up to the
position where the end phrase begins (so the returned text still
carries the start phrase); otherwise None.  An end phrase before the
start phrase gives an empty slice, as in Python. -/
def extract_shared_sub_block (content : String) : Option String :=
  match pyFind content "Shared sub channel:", pyFind content "End shared sub channel" with
  | some i, some j => some (String.mk (pyStripL ((content.toList.drop i).take (j - i))))
  | _, _ => none

/-- Modelled from the spec, for comparison with the source function:
"the trimmed substring lying strictly between the first occurrence of
the start phrase and the first occurrence of the end phrase, excluding
the marker phrases themselves".  The start of the span is therefore the
position AFTER the start phrase (19 characters long). -/
def extract_shared_sub_block_spec (content : String) : Option String :=
  match pyFind content "Shared sub channel:", pyFind content "End shared sub channel" with
  | some i, some j => some (String.mk (pyStripL ((content.toList.drop (i + 19)).take (j - (i + 19)))))
  | _, _ => none

/-- One attempted match of the channel-block pattern
`Channel: "([^"]+)"(.*?)End Channel: "\1"` anchored at the head of `s`:
the literal `Channel: "`, a nonempty greedy run of non-quote characters
as the name, the closing quote, then the shortest body (non-greedy,
DOTALL) up to `End Channel: "<name>"`.  Returns the name, the body and
the text after the whole match. -/
def tryChannelAt (s : List Char) : Option (List Char × List Char × List Char) :=
  if ("Channel: \"").toList.isPrefixOf s then
    let rest1 := s.drop 10
    let name := rest1.takeWhile (fun c => c ≠ '"')
    if name.isEmpty then none
    else
      match rest1.drop name.length with
      | '"' :: rest2 =>
        let endMarker := ("End Channel: \"").toList ++ name ++ ['"']
        match findSubL rest2 endMarker with
        | some i => some (name, rest2.take i, rest2.drop (i + endMarker.length))
        | none => none
      | _ => none
  else none

/-- `re.findall` scan for the channel-block pattern: leftmost,
non-overlapping matches; a failed attempt advances one character, a
successful one continues after the matched text.  The fuel argument
only bounds the recursion; `length + 1` fuel always suffices because
every step consumes at least one character. -/
def findChannelMatches : Nat → List Char → List (List Char × List Char)
  | 0, _ => []
  | _, [] => []
  | fuel + 1, c :: t =>
    match tryChannelAt (c :: t) with
    | some (name, body, rest) => (name, body) :: findChannelMatches fuel rest
    | none => findChannelMatches fuel t

/-- Python dict assignment `d[k] = v` on an insertion-ordered
association list: an existing key keeps its position and gets the new
value (last wins), a new key is appended. -/
def dictUpdate (d : List (String × String)) (k v : String) : List (String × String) :=
  match d with
  | [] => [(k, v)]
  | (k1, v1) :: rest => if k1 = k then (k, v) :: rest else (k1, v1) :: dictUpdate rest k v

/-- extract_channel_blocks: all channel-pattern matches folded into a
name-keyed, last-wins dict of trimmed bodies. -/
def extract_channel_blocks (content : String) : List (String × String) :=
  (findChannelMatches (content.toList.length + 1) content.toList).foldl
    (fun d p => dictUpdate d (String.mk p.1) (String.mk (pyStripL p.2))) []

/-- parse_mso_file on the already-read document text: channels whose
block parses to a nonempty record list, and the shared records when the
extracted shared block is present and truthy (Python `if shared_block:`
is false for both None and the empty string). -/
def parse_mso_file (content q_type : String)
    (included_types excluded_types : Option (List String)) :
    List (String × List FilterData) × List FilterData :=
  let channel_blocks := extract_channel_blocks content
  let shared_block := extract_shared_sub_block content
  let channels := channel_blocks.filterMap fun p =>
    let fs := parse_filters_from_text p.2 q_type included_types excluded_types
    if fs.isEmpty then none else some (p.1, fs)
  let shared_sub :=
    match shared_block with
    | some sb => if sb.isEmpty then [] else parse_filters_from_text sb q_type included_types excluded_types
    | none => []
  (channels, shared_sub)

/-- Loop of write_storm_audio_format over the records, carrying
`filter_count`.  A record whose type contains 'Parametric EQ' renders a
Bell line and consumes a number (reading the gain key: a missing key is
the source's KeyError, modelled by `none` for the whole write); else a
type containing 'All-Pass' renders an All Pass line whose order comes
from the hyphenated ordinal compound in the type (default 2) and
consumes a number; any other record is skipped and consumes no number. -/
def writeFiltersGo (filter_count : Nat) : List FilterData → Option (List String)
  | [] => some []
  | f :: rest =>
    if pyIn "Parametric EQ" f.type then
      match f.gain with
      | none => none
      | some g =>
        (writeFiltersGo (filter_count + 1) rest).map fun ls =>
          ("Filter " ++ Nat.repr filter_count ++ ": ON Bell Fc " ++ f.freq ++ " Hz Gain " ++
            g ++ " dB Q " ++ f.q) :: ls
    else if pyIn "All-Pass" f.type then
      let ord :=
        if pyIn "Second-Order" f.type then "2"
        else if pyIn "First-Order" f.type then "1"
        else if pyIn "Third-Order" f.type then "3"
        else if pyIn "Fourth-Order" f.type then "4"
        else "2"
      (writeFiltersGo (filter_count + 1) rest).map fun ls =>
        ("Filter " ++ Nat.repr filter_count ++ ": ON All Pass Order " ++ ord ++ " Fc " ++
          f.freq ++ " Hz Gain 0 dB Q " ++ f.q) :: ls
    else writeFiltersGo filter_count rest

/-- The per-filter output lines of write_storm_audio_format, numbering
from 1.  The fixed header lines (title, Dated, Equaliser, optional
Channel) precede these in the file and contain no Filter line; they
carry the current date and are not modelled. -/
def write_storm_audio_filter_lines (filters : List FilterData) : Option (List String) :=
  writeFiltersGo 1 filters

/-- One file written by the orchestrator: its name (inside the output
folder), the channel label passed to write_storm_audio_format, and the
records rendered into it. -/
structure OutputWrite where
  filename : String
  channel : String
  filters : List FilterData
deriving DecidableEq

/-- convert_mso_to_storm_audio, modelled as the list of file writes it
performs on the already-read document: one `{channel}_filters.txt` per
channel with records (shared records prepended when combine_shared is
set and the shared block yielded records), then the standalone
`shared_sub_filters.txt` labelled "Shared Sub" exactly when the shared
records are nonempty and combine_shared is not set. -/
def convert_mso_to_storm_audio (content q_type : String)
    (included_types excluded_types : Option (List String)) (combine_shared : Bool) :
    List OutputWrite :=
  let parsed := parse_mso_file content q_type included_types excluded_types
  let shared_sub := parsed.2
  let channelWrites := parsed.1.filterMap fun p =>
    if p.2.isEmpty then none
    else if combine_shared && !shared_sub.isEmpty then
      some { filename := p.1 ++ "_filters.txt", channel := p.1, filters := shared_sub ++ p.2 }
    else
      some { filename := p.1 ++ "_filters.txt", channel := p.1, filters := p.2 }
  let sharedWrites :=
    if !shared_sub.isEmpty && !combine_shared then
      [{ filename := "shared_sub_filters.txt", channel := "Shared Sub", filters := shared_sub : OutputWrite }]
    else []
  channelWrites ++ sharedWrites

/-- Default of the --include-types command-line argument in main();
this is the only place where the {'Parametric EQ', 'All-Pass'} include
set originates. -/
def cli_include_types_default : List String := ["Parametric EQ", "All-Pass"]

theorem peq_shape {nm ty ps qt : String} {r : FilterData}
    (h : parse_parametric_eq_parameters nm ty ps qt = some r) :
    r.type = ty ∧ r.gain.isSome ∧ r.q_rbj.isSome ∧ r.q_classic.isSome := by
  unfold parse_parametric_eq_parameters at h
  cases hf : peqFreqCapture ps <;> rw [hf] at h <;>
    cases hg : peqGainCapture ps <;> rw [hg] at h <;>
      cases hq : peqQrbjCapture ps <;> rw [hq] at h <;> simp at h
  subst h
  simp

theorem ap_shape {nm ty ps : String} {r : FilterData}
    (h : parse_allpass_parameters nm ty ps = some r) :
    r.type = ty ∧ r.gain = none ∧ r.q_rbj = none ∧ r.q_classic = none := by
  unfold parse_allpass_parameters at h
  cases hf : apFreqCapture ps <;> rw [hf] at h <;>
    cases hq : apQCapture ps <;> rw [hq] at h <;> simp at h
  subst h
  simp

/-- Claim C1: a Parametric EQ chunk yields a record only if the center
frequency, boost and RBJ Q are all located by pattern match in the
chunk body (otherwise no record); and when the Classic Q pattern finds
nothing, the produced record's q_classic equals its q_rbj. -/
theorem claimC1 (nm ty ps qt : String) :
    ((parse_parametric_eq_parameters nm ty ps qt).isSome →
      (peqFreqCapture ps).isSome ∧ (peqGainCapture ps).isSome ∧ (peqQrbjCapture ps).isSome) ∧
    (∀ r, parse_parametric_eq_parameters nm ty ps qt = some r →
      peqQclassicCapture ps = none → r.q_classic = r.q_rbj) := by
  constructor
  · intro h
    unfold parse_parametric_eq_parameters at h
    cases hf : peqFreqCapture ps <;> rw [hf] at h <;>
      cases hg : peqGainCapture ps <;> rw [hg] at h <;>
        cases hq : peqQrbjCapture ps <;> rw [hq] at h <;> simp_all
  · intro r hr hc
    unfold parse_parametric_eq_parameters at hr
    cases hf : peqFreqCapture ps <;> rw [hf] at hr <;>
      cases hg : peqGainCapture ps <;> rw [hg] at hr <;>
        cases hq : peqQrbjCapture ps <;> rw [hq] at hr <;> simp at hr
    rw [hc] at hr
    subst hr
    simp

/-- Witness for C1 at a concrete chunk body carrying the three required
parameters and no Classic Q. -/
theorem claimC1_witness :
    parse_parametric_eq_parameters "FL1" "Parametric EQ"
      "Parameter \"Center freq (Hz)\" = 100.0\nParameter \"Boost (dB)\" = -3.0\nParameter \"Q (RBJ)\" = 0.7"
      "rbj" = some { name := "FL1", type := "Parametric EQ", freq := "100.0", gain := some "-3.0",
                     q := "0.7", q_rbj := some "0.7", q_classic := some "0.7" } ∧
    peqQclassicCapture
      "Parameter \"Center freq (Hz)\" = 100.0\nParameter \"Boost (dB)\" = -3.0\nParameter \"Q (RBJ)\" = 0.7" = none ∧
    ({ name := "FL1", type := "Parametric EQ", freq := "100.0", gain := some "-3.0",
       q := "0.7", q_rbj := some "0.7", q_classic := some "0.7" : FilterData }).q_classic =
      ({ name := "FL1", type := "Parametric EQ", freq := "100.0", gain := some "-3.0",
         q := "0.7", q_rbj := some "0.7", q_classic := some "0.7" : FilterData }).q_rbj :=
  ⟨by decide, by decide,
    (claimC1 "FL1" "Parametric EQ"
      "Parameter \"Center freq (Hz)\" = 100.0\nParameter \"Boost (dB)\" = -3.0\nParameter \"Q (RBJ)\" = 0.7"
      "rbj").2 _ (by decide) (by decide)⟩

/-- Claim C9: for any q_type other than the exact string 'classic'
(including 'Classic', 'CLASSIC', 'rbj', or any arbitrary string), a
produced Parametric EQ record's q equals its q_rbj; the q_type value is
never validated against the {rbj, classic} enum, so every such string
is accepted and behaves like rbj. -/
theorem claimC9 (nm ty ps qt : String) (hq : qt ≠ "classic") :
    ∀ r, parse_parametric_eq_parameters nm ty ps qt = some r → r.q_rbj = some r.q := by
  intro r hr
  unfold parse_parametric_eq_parameters at hr
  cases hf : peqFreqCapture ps <;> rw [hf] at hr <;>
    cases hg : peqGainCapture ps <;> rw [hg] at hr <;>
      cases hq2 : peqQrbjCapture ps <;> rw [hq2] at hr <;> simp at hr
  subst hr
  simp [hq]

/-- Witness for C9 with the unvalidated q_type string 'Classic'
(capitalised, hence not the exact string 'classic'). -/
theorem claimC9_witness :
    ("Classic" : String) ≠ "classic" ∧
    parse_parametric_eq_parameters "FL1" "Parametric EQ"
      "Parameter \"Center freq (Hz)\" = 100.0\nParameter \"Boost (dB)\" = -3.0\nParameter \"Q (RBJ)\" = 0.7\n\"Classic\" Q = 0.9"
      "Classic" = some { name := "FL1", type := "Parametric EQ", freq := "100.0",
                         gain := some "-3.0", q := "0.7", q_rbj := some "0.7",
                         q_classic := some "0.9" } ∧
    ({ name := "FL1", type := "Parametric EQ", freq := "100.0", gain := some "-3.0",
       q := "0.7", q_rbj := some "0.7", q_classic := some "0.9" : FilterData }).q_rbj =
      some ({ name := "FL1", type := "Parametric EQ", freq := "100.0", gain := some "-3.0",
              q := "0.7", q_rbj := some "0.7", q_classic := some "0.9" : FilterData }).q :=
  ⟨by decide, by decide,
    claimC9 "FL1" "Parametric EQ"
      "Parameter \"Center freq (Hz)\" = 100.0\nParameter \"Boost (dB)\" = -3.0\nParameter \"Q (RBJ)\" = 0.7\n\"Classic\" Q = 0.9"
      "Classic" (by decide) _ (by decide)⟩

theorem processFilterBlock_inv {q : String} {inc exc : List String} {b : List Char}
    {r : FilterData} (h : processFilterBlock q inc exc b = some r) :
    should_include_type r.type inc exc = true ∧
    ((pyIn "Parametric EQ" r.type = true ∧ r.gain.isSome ∧ r.q_rbj.isSome ∧ r.q_classic.isSome) ∨
     (pyIn "Parametric EQ" r.type = false ∧ pyIn "All-Pass" r.type = true ∧
       r.gain = none ∧ r.q_rbj = none ∧ r.q_classic = none)) := by
  unfold processFilterBlock at h
  split at h
  · exact absurd h (by simp)
  · split at h
    · exact absurd h (by simp)
    · rename_i first_line rest
      split at h
      · exact absurd h (by simp)
      · rename_i tag rawType
        simp only [] at h
        split at h
        · exact absurd h (by simp)
        · rename_i hinc
          split at h
          · rename_i hpeq
            obtain ⟨hty, hg, hq1, hq2⟩ := peq_shape h
            rw [hty]
            exact ⟨by simpa using hinc, Or.inl ⟨hpeq, hg, hq1, hq2⟩⟩
          · split at h
            · rename_i hnp hap
              obtain ⟨hty, hg, hq1, hq2⟩ := ap_shape h
              rw [hty]
              exact ⟨by simpa using hinc, Or.inr ⟨by simpa using hnp, hap, hg, hq1, hq2⟩⟩
            · exact absurd h (by simp)

theorem mem_parse_filters {text q : String} {inc exc : Option (List String)} {r : FilterData}
    (hr : r ∈ parse_filters_from_text text q inc exc) :
    should_include_type r.type (inc.getD ["Parametric EQ"])
        (exc.getD ["Gain Block", "Delay Block"]) = true ∧
    ((pyIn "Parametric EQ" r.type = true ∧ r.gain.isSome ∧ r.q_rbj.isSome ∧ r.q_classic.isSome) ∨
     (pyIn "Parametric EQ" r.type = false ∧ pyIn "All-Pass" r.type = true ∧
       r.gain = none ∧ r.q_rbj = none ∧ r.q_classic = none)) := by
  unfold parse_filters_from_text at hr
  rw [List.mem_filterMap] at hr
  obtain ⟨b, -, hb⟩ := hr
  exact processFilterBlock_inv hb

/-- Claim C2: the include/exclude decision is computed so that a
case-insensitive exclude-phrase match forces exclusion even when an
include phrase also matches; consequently, a record coming out of the
filter parser never has a type matching any configured exclude phrase. -/
theorem claimC2 :
    (∀ (ftype : String) (inc exc : List String),
      (exc.any fun t => pyIn (pyLower t) (pyLower ftype)) = true →
      should_include_type ftype inc exc = false) ∧
    (∀ (text q : String) (inc exc : Option (List String)) (r : FilterData),
      r ∈ parse_filters_from_text text q inc exc →
      ((exc.getD ["Gain Block", "Delay Block"]).any fun t =>
        pyIn (pyLower t) (pyLower r.type)) = false) := by
  constructor
  · intro ftype inc exc hexc
    simp [should_include_type, hexc]
  · intro text q inc exc r hr
    have h1 := (mem_parse_filters hr).1
    unfold should_include_type at h1
    simp only [Bool.and_eq_true, Bool.not_eq_true'] at h1
    exact h1.2

/-- Witness for C2: a Parametric EQ record produced under the default
configuration matches no default exclude phrase. -/
theorem claimC2_witness :
    { name := "FL1", type := "Parametric EQ", freq := "100.0", gain := some "-3.0",
      q := "0.7", q_rbj := some "0.7", q_classic := some "0.7" : FilterData } ∈
      parse_filters_from_text
        "FL1: Parametric EQ\nParameter \"Center freq (Hz)\" = 100.0\nParameter \"Boost (dB)\" = -3.0\nParameter \"Q (RBJ)\" = 0.7"
        "rbj" none none ∧
    ((["Gain Block", "Delay Block"] : List String).any fun t =>
      pyIn (pyLower t) (pyLower "Parametric EQ")) = false :=
  ⟨by decide,
    claimC2.2
      "FL1: Parametric EQ\nParameter \"Center freq (Hz)\" = 100.0\nParameter \"Boost (dB)\" = -3.0\nParameter \"Q (RBJ)\" = 0.7"
      "rbj" none none
      { name := "FL1", type := "Parametric EQ", freq := "100.0", gain := some "-3.0",
        q := "0.7", q_rbj := some "0.7", q_classic := some "0.7" } (by decide)⟩

/-- Counterexample to claim C3: a chunk typed 'parametric eq' (lower
case) passes the case-insensitive include/exclude filtering under the
default configuration, and its body is accepted by the Parametric EQ
routine, yet the parser produces no record for it: the routine
selection at the dispatch is case-SENSITIVE, not case-insensitive. -/
theorem claimC3_counterexample :
    should_include_type "parametric eq" ["Parametric EQ"] ["Gain Block", "Delay Block"] = true ∧
    (parse_parametric_eq_parameters "FL1" "parametric eq"
      "Parameter \"Center freq (Hz)\" = 100.0\nParameter \"Boost (dB)\" = -3.0\nParameter \"Q (RBJ)\" = 0.7"
      "rbj").isSome = true ∧
    parse_filters_from_text
      "FL1: parametric eq\nParameter \"Center freq (Hz)\" = 100.0\nParameter \"Boost (dB)\" = -3.0\nParameter \"Q (RBJ)\" = 0.7"
      "rbj" none none = [] := by
  refine ⟨by decide, by decide, by decide⟩

/-- Claim C3 as amended: after include/exclude filtering, the routine
is selected by CASE-SENSITIVE substring match on the chunk type — a
type containing the exact text 'Parametric EQ' goes to the Parametric
EQ routine, else one containing the exact text 'All-Pass' goes to the
All-Pass routine; other letter cases yield no record.  Which routine
built a record is visible in its optional dict keys. -/
theorem claimC3_amended (text q : String) (inc exc : Option (List String)) (r : FilterData)
    (hr : r ∈ parse_filters_from_text text q inc exc) :
    (pyIn "Parametric EQ" r.type = true ∧
      r.gain.isSome ∧ r.q_rbj.isSome ∧ r.q_classic.isSome) ∨
    (pyIn "Parametric EQ" r.type = false ∧ pyIn "All-Pass" r.type = true ∧
      r.gain = none ∧ r.q_rbj = none ∧ r.q_classic = none) :=
  (mem_parse_filters hr).2

/-- Witness for the amended C3: a record of type 'All-Pass Second-Order'
was built by the All-Pass routine. -/
theorem claimC3_witness :
    (pyIn "Parametric EQ"
        ({ name := "FL1", type := "All-Pass Second-Order", freq := "60.0", gain := none,
           q := "1.0", q_rbj := none, q_classic := none : FilterData }).type = true ∧
      ({ name := "FL1", type := "All-Pass Second-Order", freq := "60.0", gain := none,
         q := "1.0", q_rbj := none, q_classic := none : FilterData }).gain.isSome ∧
      ({ name := "FL1", type := "All-Pass Second-Order", freq := "60.0", gain := none,
         q := "1.0", q_rbj := none, q_classic := none : FilterData }).q_rbj.isSome ∧
      ({ name := "FL1", type := "All-Pass Second-Order", freq := "60.0", gain := none,
         q := "1.0", q_rbj := none, q_classic := none : FilterData }).q_classic.isSome) ∨
    (pyIn "Parametric EQ"
        ({ name := "FL1", type := "All-Pass Second-Order", freq := "60.0", gain := none,
           q := "1.0", q_rbj := none, q_classic := none : FilterData }).type = false ∧
      pyIn "All-Pass"
        ({ name := "FL1", type := "All-Pass Second-Order", freq := "60.0", gain := none,
           q := "1.0", q_rbj := none, q_classic := none : FilterData }).type = true ∧
      ({ name := "FL1", type := "All-Pass Second-Order", freq := "60.0", gain := none,
         q := "1.0", q_rbj := none, q_classic := none : FilterData }).gain = none ∧
      ({ name := "FL1", type := "All-Pass Second-Order", freq := "60.0", gain := none,
         q := "1.0", q_rbj := none, q_classic := none : FilterData }).q_rbj = none ∧
      ({ name := "FL1", type := "All-Pass Second-Order", freq := "60.0", gain := none,
         q := "1.0", q_rbj := none, q_classic := none : FilterData }).q_classic = none) :=
  claimC3_amended
    "FL1: All-Pass Second-Order\nParameter \"Freq of 180 deg phase (Hz)\" = 60.0\nParameter \"All-pass Q\" = 1.0"
    "rbj" (some ["Parametric EQ", "All-Pass"]) none
    { name := "FL1", type := "All-Pass Second-Order", freq := "60.0", gain := none,
      q := "1.0", q_rbj := none, q_classic := none } (by decide)

/-- Counterexample to claim C4: for an emitted All-Pass record whose
type is 'All-Pass First Order' the ordinal word 'First' appears in the
type (so the claim demands Order 1, not the default 2), yet the emitter
renders Order 2: the order is matched against the hyphenated compound
'First-Order', not against the ordinal word. -/
theorem claimC4_counterexample :
    pyIn "First" "All-Pass First Order" = true ∧
    pyIn "First-Order" "All-Pass First Order" = false ∧
    write_storm_audio_filter_lines
      [{ name := "FL1", type := "All-Pass First Order", freq := "60.0", gain := none,
         q := "1.0", q_rbj := none, q_classic := none }] =
      some ["Filter 1: ON All Pass Order 2 Fc 60.0 Hz Gain 0 dB Q 1.0"] := by
  refine ⟨by decide, by decide, by decide⟩

/-- Claim C4 as amended: every emitted All-Pass line has the shape
`Filter {n}: ON All Pass Order {order} Fc {freq} Hz Gain 0 dB Q {q}`,
where the order is derived from the hyphenated ordinal compound found
case-sensitively in the record's type ('First-Order' → 1,
'Second-Order' → 2, 'Third-Order' → 3, 'Fourth-Order' → 4, with
'Second-Order' tested first) and defaults to 2 when none of those
compounds appears. -/
theorem claimC4_amended (n : Nat) (r : FilterData) (rest : List FilterData)
    (h1 : pyIn "Parametric EQ" r.type = false) (h2 : pyIn "All-Pass" r.type = true) :
    writeFiltersGo n (r :: rest) =
      (writeFiltersGo (n + 1) rest).map fun ls =>
        ("Filter " ++ Nat.repr n ++ ": ON All Pass Order " ++
          (if pyIn "Second-Order" r.type then "2"
           else if pyIn "First-Order" r.type then "1"
           else if pyIn "Third-Order" r.type then "3"
           else if pyIn "Fourth-Order" r.type then "4"
           else "2") ++ " Fc " ++ r.freq ++ " Hz Gain 0 dB Q " ++ r.q) :: ls := by
  simp only [writeFiltersGo, h1, h2]
  simp

/-- Witness for the amended C4, matching the spec's own example: an
All-Pass record with 'Third-Order' in its type, freq 60.0 and Q 1.0
renders `Filter 1: ON All Pass Order 3 Fc 60.0 Hz Gain 0 dB Q 1.0`. -/
theorem claimC4_witness :
    pyIn "Parametric EQ" "All-Pass Third-Order" = false ∧
    pyIn "All-Pass" "All-Pass Third-Order" = true ∧
    write_storm_audio_filter_lines
      [{ name := "FL1", type := "All-Pass Third-Order", freq := "60.0", gain := none,
         q := "1.0", q_rbj := none, q_classic := none }] =
      some ["Filter 1: ON All Pass Order 3 Fc 60.0 Hz Gain 0 dB Q 1.0"] := by
  refine ⟨by decide, by decide, ?e⟩
  show writeFiltersGo 1 _ = _
  rw [claimC4_amended 1
    { name := "FL1", type := "All-Pass Third-Order", freq := "60.0", gain := none,
      q := "1.0", q_rbj := none, q_classic := none } [] (by decide) (by decide)]
  decide

theorem bell_line_split (x d g q : String) :
    "Filter " ++ x ++ ": ON Bell Fc " ++ d ++ " Hz Gain " ++ g ++ " dB Q " ++ q =
      "Filter " ++ x ++ ": " ++ ("ON Bell Fc " ++ d ++ " Hz Gain " ++ g ++ " dB Q " ++ q) := by
  apply String.ext
  simp only [String.data_append]
  simp [List.append_assoc]

theorem allpass_line_split (x o d q : String) :
    "Filter " ++ x ++ ": ON All Pass Order " ++ o ++ " Fc " ++ d ++ " Hz Gain 0 dB Q " ++ q =
      "Filter " ++ x ++ ": " ++ ("ON All Pass Order " ++ o ++ " Fc " ++ d ++ " Hz Gain 0 dB Q " ++ q) := by
  apply String.ext
  simp only [String.data_append]
  simp [List.append_assoc]

theorem writeFiltersGo_numbering (fs : List FilterData) : ∀ (n : Nat),
    (∀ r ∈ fs, pyIn "Parametric EQ" r.type = true → r.gain.isSome) →
    ∃ lines, writeFiltersGo n fs = some lines ∧
      lines.length = fs.countP (fun r => pyIn "Parametric EQ" r.type || pyIn "All-Pass" r.type) ∧
      ∀ i (hi : i < lines.length), ∃ t,
        lines.get ⟨i, hi⟩ = "Filter " ++ Nat.repr (n + i) ++ ": " ++ t := by
  induction fs with
  | nil =>
    intro n h
    exact ⟨[], rfl, by simp, fun i hi => absurd hi (by simp)⟩
  | cons f rest ih =>
    intro n h
    by_cases hp : pyIn "Parametric EQ" f.type = true
    · obtain ⟨g, hg⟩ := Option.isSome_iff_exists.mp (h f (List.mem_cons_self f rest) hp)
      obtain ⟨ls, h1, h2, h3⟩ := ih (n + 1) fun r hr => h r (List.mem_cons_of_mem f hr)
      refine ⟨("Filter " ++ Nat.repr n ++ ": ON Bell Fc " ++ f.freq ++ " Hz Gain " ++ g ++
          " dB Q " ++ f.q) :: ls, ?e1, ?e2, ?e3⟩
      case e1 => simp [writeFiltersGo, hp, hg, h1]
      case e2 => simp [List.countP_cons, hp, h2, Nat.add_comm]
      case e3 =>
        intro i hi
        cases i with
        | zero =>
          refine ⟨"ON Bell Fc " ++ f.freq ++ " Hz Gain " ++ g ++ " dB Q " ++ f.q, ?_⟩
          simpa using bell_line_split (Nat.repr n) f.freq g f.q
        | succ i =>
          obtain ⟨t, ht⟩ := h3 i (by simpa using hi)
          refine ⟨t, ?_⟩
          rw [show n + (i + 1) = n + 1 + i by omega]
          simpa using ht
    · by_cases ha : pyIn "All-Pass" f.type = true
      · obtain ⟨ls, h1, h2, h3⟩ := ih (n + 1) fun r hr => h r (List.mem_cons_of_mem f hr)
        refine ⟨("Filter " ++ Nat.repr n ++ ": ON All Pass Order " ++
            (if pyIn "Second-Order" f.type then "2"
             else if pyIn "First-Order" f.type then "1"
             else if pyIn "Third-Order" f.type then "3"
             else if pyIn "Fourth-Order" f.type then "4"
             else "2") ++ " Fc " ++ f.freq ++ " Hz Gain 0 dB Q " ++ f.q) :: ls, ?e1, ?e2, ?e3⟩
        case e1 => simp [writeFiltersGo, hp, ha, h1]
        case e2 => simp [List.countP_cons, hp, ha, h2, Nat.add_comm]
        case e3 =>
          intro i hi
          cases i with
          | zero =>
            refine ⟨"ON All Pass Order " ++
              (if pyIn "Second-Order" f.type then "2"
               else if pyIn "First-Order" f.type then "1"
               else if pyIn "Third-Order" f.type then "3"
               else if pyIn "Fourth-Order" f.type then "4"
               else "2") ++ " Fc " ++ f.freq ++ " Hz Gain 0 dB Q " ++ f.q, ?_⟩
            simpa using allpass_line_split (Nat.repr n) _ f.freq f.q
          | succ i =>
            obtain ⟨t, ht⟩ := h3 i (by simpa using hi)
            refine ⟨t, ?_⟩
            rw [show n + (i + 1) = n + 1 + i by omega]
            simpa using ht
      · obtain ⟨ls, h1, h2, h3⟩ := ih n fun r hr => h r (List.mem_cons_of_mem f hr)
        refine ⟨ls, ?e1, ?e2, h3⟩
        case e1 => simp [writeFiltersGo, hp, ha, h1]
        case e2 => simp [List.countP_cons, hp, ha, h2]

/-- Claim C5: on any record sequence in which Parametric-EQ-typed
records carry their gain key (always the case for records built by this
program's parsers), the emitter succeeds, writes one line per record
that has a rendering rule (type containing 'Parametric EQ' or
'All-Pass'), and numbers those lines exactly 1, 2, 3, ... with no gaps;
records with no rendering rule consume no number and cause no failure. -/
theorem claimC5 (fs : List FilterData)
    (h : ∀ r ∈ fs, pyIn "Parametric EQ" r.type = true → r.gain.isSome) :
    ∃ lines, write_storm_audio_filter_lines fs = some lines ∧
      lines.length = fs.countP (fun r => pyIn "Parametric EQ" r.type || pyIn "All-Pass" r.type) ∧
      ∀ i (hi : i < lines.length), ∃ t,
        lines.get ⟨i, hi⟩ = "Filter " ++ Nat.repr (i + 1) ++ ": " ++ t := by
  obtain ⟨lines, h1, h2, h3⟩ := writeFiltersGo_numbering fs 1 h
  refine ⟨lines, h1, h2, ?_⟩
  intro i hi
  obtain ⟨t, ht⟩ := h3 i hi
  exact ⟨t, by rwa [Nat.add_comm 1 i] at ht⟩

/-- Witness for C5 on a mixed concrete sequence: a Parametric EQ
record, a record with no rendering rule, then an All-Pass record. -/
theorem claimC5_witness :
    write_storm_audio_filter_lines
      [{ name := "FL1", type := "Parametric EQ", freq := "100.0", gain := some "-3.0",
         q := "0.7", q_rbj := some "0.7", q_classic := some "0.7" },
       { name := "FL2", type := "Gain Block", freq := "0", gain := none,
         q := "0", q_rbj := none, q_classic := none },
       { name := "FL3", type := "All-Pass Third-Order", freq := "60.0", gain := none,
         q := "1.0", q_rbj := none, q_classic := none }] ≠ none := by
  obtain ⟨lines, h1, -, -⟩ := claimC5
    [{ name := "FL1", type := "Parametric EQ", freq := "100.0", gain := some "-3.0",
       q := "0.7", q_rbj := some "0.7", q_classic := some "0.7" },
     { name := "FL2", type := "Gain Block", freq := "0", gain := none,
       q := "0", q_rbj := none, q_classic := none },
     { name := "FL3", type := "All-Pass Third-Order", freq := "60.0", gain := none,
       q := "1.0", q_rbj := none, q_classic := none }] (by decide)
  rw [h1]
  simp

theorem string_append_right_cancel {a b s : String} (h : a ++ s = b ++ s) : a = b := by
  apply String.ext
  have h2 := congrArg String.data h
  simp only [String.data_append] at h2
  exact List.append_cancel_right h2

theorem sharedPred_channel_write (nm : String) :
    (((nm ++ "_filters.txt" : String) == "shared_sub_filters.txt") &&
      (nm == "Shared Sub")) = false := by
  by_cases hnm : nm = "Shared Sub"
  · subst hnm
    decide
  · simp [hnm]

theorem countP_filterMap_eq_zero {α β : Type} (f : α → Option β) (p : β → Bool) (l : List α)
    (h : ∀ a b, f a = some b → p b = false) : (l.filterMap f).countP p = 0 := by
  rw [List.countP_eq_zero]
  intro b hb
  obtain ⟨a, -, ha⟩ := List.mem_filterMap.mp hb
  simp [h a b ha]

/-- Claim C6: when the shared block yields at least one record, the
standalone shared-sub file (name `shared_sub_filters.txt`, channel
label "Shared Sub") is written exactly once if combine_shared is false
and never if combine_shared is true; in the combine case the shared
records appear only merged, first, into each channel's file, and in the
standalone case that file carries exactly the shared records. -/
theorem claimC6 (content q_type : String) (inc exc : Option (List String))
    (h : (parse_mso_file content q_type inc exc).2 ≠ []) :
    ((convert_mso_to_storm_audio content q_type inc exc true).countP
        (fun w => (w.filename == "shared_sub_filters.txt") && (w.channel == "Shared Sub")) = 0) ∧
    ((convert_mso_to_storm_audio content q_type inc exc false).countP
        (fun w => (w.filename == "shared_sub_filters.txt") && (w.channel == "Shared Sub")) = 1) ∧
    (∀ w ∈ convert_mso_to_storm_audio content q_type inc exc false,
        w.filename = "shared_sub_filters.txt" → w.channel = "Shared Sub" →
        w.filters = (parse_mso_file content q_type inc exc).2) ∧
    (∀ w ∈ convert_mso_to_storm_audio content q_type inc exc true,
        (parse_mso_file content q_type inc exc).2 <+: w.filters) := by
  have hS : (parse_mso_file content q_type inc exc).2.isEmpty = false := by
    simp [List.isEmpty_iff, h]
  refine ⟨?e1, ?e2, ?e3, ?e4⟩
  case e1 =>
    simp only [convert_mso_to_storm_audio]
    rw [List.countP_append, countP_filterMap_eq_zero]
    · simp
    · intro p w hw
      split at hw
      · exact absurd hw (by simp)
      · split at hw <;> rw [Option.some_inj] at hw <;> rw [← hw] <;>
          exact sharedPred_channel_write p.1
  case e2 =>
    simp only [convert_mso_to_storm_audio]
    rw [List.countP_append, countP_filterMap_eq_zero]
    · simp [hS]
    · intro p w hw
      split at hw
      · exact absurd hw (by simp)
      · split at hw <;> rw [Option.some_inj] at hw <;> rw [← hw] <;>
          exact sharedPred_channel_write p.1
  case e3 =>
    intro w hw hf hc
    simp only [convert_mso_to_storm_audio, List.mem_append] at hw
    rcases hw with hw | hw
    · exfalso
      obtain ⟨p, -, hp⟩ := List.mem_filterMap.mp hw
      have hnm : p.1 = "shared_sub" := by
        split at hp
        · exact absurd hp (by simp)
        · split at hp <;> rw [Option.some_inj] at hp <;> rw [← hp] at hf <;>
            exact string_append_right_cancel
              (hf.trans (by decide : ("shared_sub_filters.txt" : String) = "shared_sub" ++ "_filters.txt"))
      have hch : w.channel = p.1 := by
        split at hp
        · exact absurd hp (by simp)
        · split at hp <;> rw [Option.some_inj] at hp <;> rw [← hp]
      rw [hch, hnm] at hc
      exact absurd hc (by decide)
    · have hw2 : w = ⟨"shared_sub_filters.txt", "Shared Sub",
          (parse_mso_file content q_type inc exc).2⟩ := by
        simpa [hS] using hw
      rw [hw2]
  case e4 =>
    intro w hw
    simp only [convert_mso_to_storm_audio, List.mem_append] at hw
    rcases hw with hw | hw
    · obtain ⟨p, -, hp⟩ := List.mem_filterMap.mp hw
      split at hp
      · exact absurd hp (by simp)
      · rw [if_pos (by simp [hS])] at hp
        rw [Option.some_inj] at hp
        rw [← hp]
        exact List.prefix_append _ _
    · exact absurd hw (by simp)

set_option maxRecDepth 10000

/-- Witness for C6 on a concrete document whose shared block yields one
record and which has no channel blocks. -/
theorem claimC6_witness :
    (parse_mso_file
      "Shared sub channel:\nFL1: Parametric EQ\nParameter \"Center freq (Hz)\" = 100.0\nParameter \"Boost (dB)\" = -3.0\nParameter \"Q (RBJ)\" = 0.7\nEnd shared sub channel"
      "rbj" none none).2 ≠ [] ∧
    ((convert_mso_to_storm_audio
      "Shared sub channel:\nFL1: Parametric EQ\nParameter \"Center freq (Hz)\" = 100.0\nParameter \"Boost (dB)\" = -3.0\nParameter \"Q (RBJ)\" = 0.7\nEnd shared sub channel"
      "rbj" none none true).countP
        (fun w => (w.filename == "shared_sub_filters.txt") && (w.channel == "Shared Sub")) = 0) ∧
    ((convert_mso_to_storm_audio
      "Shared sub channel:\nFL1: Parametric EQ\nParameter \"Center freq (Hz)\" = 100.0\nParameter \"Boost (dB)\" = -3.0\nParameter \"Q (RBJ)\" = 0.7\nEnd shared sub channel"
      "rbj" none none false).countP
        (fun w => (w.filename == "shared_sub_filters.txt") && (w.channel == "Shared Sub")) = 1) :=
  ⟨by decide,
    (claimC6
      "Shared sub channel:\nFL1: Parametric EQ\nParameter \"Center freq (Hz)\" = 100.0\nParameter \"Boost (dB)\" = -3.0\nParameter \"Q (RBJ)\" = 0.7\nEnd shared sub channel"
      "rbj" none none (by decide)).1,
    (claimC6
      "Shared sub channel:\nFL1: Parametric EQ\nParameter \"Center freq (Hz)\" = 100.0\nParameter \"Boost (dB)\" = -3.0\nParameter \"Q (RBJ)\" = 0.7\nEnd shared sub channel"
      "rbj" none none (by decide)).2.1⟩

theorem findSubL_isPrefixOf (needle : List Char) :
    ∀ (hay : List Char) (i : Nat), findSubL hay needle = some i →
      needle.isPrefixOf (hay.drop i) = true := by
  intro hay
  induction hay with
  | nil =>
    intro i hfind
    unfold findSubL at hfind
    split at hfind
    · rename_i hpre
      rw [Option.some_inj] at hfind
      rw [← hfind]
      exact hpre
    · exact absurd hfind (by simp)
  | cons c t ih =>
    intro i hfind
    unfold findSubL at hfind
    split at hfind
    · rename_i hpre
      rw [Option.some_inj] at hfind
      rw [← hfind]
      exact hpre
    · simp only [Option.map_eq_some'] at hfind
      obtain ⟨i0, hi0, hi⟩ := hfind
      rw [← hi, List.drop_succ_cons]
      exact ih i0 hi0

/-- Counterexample to claim C7: in a document where text precedes the
two marker phrases, the Block Extractor returns a span that still
BEGINS WITH the start phrase 'Shared sub channel:' — not the trimmed
substring lying strictly between the two phrases that the claim
describes (computed here by the spec-modelled variant). -/
theorem claimC7_counterexample :
    extract_shared_sub_block "xShared sub channel: ABC End shared sub channel" =
      some "Shared sub channel: ABC" ∧
    extract_shared_sub_block_spec "xShared sub channel: ABC End shared sub channel" =
      some "ABC" ∧
    extract_shared_sub_block "xShared sub channel: ABC End shared sub channel" ≠
      extract_shared_sub_block_spec "xShared sub channel: ABC End shared sub channel" := by
  refine ⟨by decide, by decide, by decide⟩

/-- Claim C7 as amended: when both marker phrases occur, the extractor
returns the trimmed span running from the position where the FIRST
occurrence of the start phrase BEGINS (the span therefore includes the
start phrase itself) up to, and excluding, the first occurrence of the
end phrase; when either phrase is missing, no shared block is
returned. -/
theorem claimC7_amended (content : String) :
    (∀ i j, pyFind content "Shared sub channel:" = some i →
        pyFind content "End shared sub channel" = some j →
        extract_shared_sub_block content =
          some (String.mk (pyStripL ((content.toList.drop i).take (j - i)))) ∧
        ("Shared sub channel:").toList.isPrefixOf (content.toList.drop i) = true) ∧
    ((pyFind content "Shared sub channel:" = none ∨
        pyFind content "End shared sub channel" = none) →
      extract_shared_sub_block content = none) := by
  constructor
  · intro i j hi hj
    constructor
    · simp [extract_shared_sub_block, hi, hj]
    · exact findSubL_isPrefixOf ("Shared sub channel:").toList content.toList i hi
  · intro hmiss
    rcases hmiss with hm | hm
    · simp [extract_shared_sub_block, hm]
    · cases hs : pyFind content "Shared sub channel:" <;>
        simp [extract_shared_sub_block, hs, hm]

/-- Witness for the amended C7 at a concrete document. -/
theorem claimC7_witness :
    pyFind "xShared sub channel: ABC End shared sub channel" "Shared sub channel:" = some 1 ∧
    pyFind "xShared sub channel: ABC End shared sub channel" "End shared sub channel" = some 25 ∧
    extract_shared_sub_block "xShared sub channel: ABC End shared sub channel" =
      some (String.mk (pyStripL
        ((("xShared sub channel: ABC End shared sub channel").toList.drop 1).take (25 - 1)))) ∧
    ("Shared sub channel:").toList.isPrefixOf
      (("xShared sub channel: ABC End shared sub channel").toList.drop 1) = true :=
  ⟨by decide, by decide,
    ((claimC7_amended "xShared sub channel: ABC End shared sub channel").1 1 25
      (by decide) (by decide)).1,
    ((claimC7_amended "xShared sub channel: ABC End shared sub channel").1 1 25
      (by decide) (by decide)).2⟩

/-- Counterexample to claim C8: a document whose one channel holds a
complete All-Pass chunk converts to NO output when include_types is
omitted (None) at the conversion function — the parser's own default
include set is only {'Parametric EQ'} — although with the
{'Parametric EQ', 'All-Pass'} set the claim promises, the chunk is
retained.  Omitting the include set is therefore not equivalent to
passing {'Parametric EQ', 'All-Pass'}. -/
theorem claimC8_counterexample :
    convert_mso_to_storm_audio
      "Channel: \"Left\"\nFL1: All-Pass Second-Order\nParameter \"Freq of 180 deg phase (Hz)\" = 60.0\nParameter \"All-pass Q\" = 1.0\nEnd Channel: \"Left\""
      "rbj" none none false = [] ∧
    convert_mso_to_storm_audio
      "Channel: \"Left\"\nFL1: All-Pass Second-Order\nParameter \"Freq of 180 deg phase (Hz)\" = 60.0\nParameter \"All-pass Q\" = 1.0\nEnd Channel: \"Left\""
      "rbj" (some ["Parametric EQ", "All-Pass"]) none false ≠ [] := by
  refine ⟨by decide, by decide⟩

/-- Claim C8 as amended: an omitted include set (None) at the
conversion or parsing functions defaults to {'Parametric EQ'} alone, so
All-Pass chunks are then dropped; the {'Parametric EQ', 'All-Pass'}
include set is only the default value of the --include-types
command-line argument, which main() always passes explicitly, and under
which All-Pass chunks are retained. -/
theorem claimC8_amended :
    (∀ (text q : String) (exc : Option (List String)),
      parse_filters_from_text text q none exc =
        parse_filters_from_text text q (some ["Parametric EQ"]) exc) ∧
    cli_include_types_default = ["Parametric EQ", "All-Pass"] ∧
    parse_filters_from_text
      "FL1: All-Pass Second-Order\nParameter \"Freq of 180 deg phase (Hz)\" = 60.0\nParameter \"All-pass Q\" = 1.0"
      "rbj" (some cli_include_types_default) none ≠ [] ∧
    parse_filters_from_text
      "FL1: All-Pass Second-Order\nParameter \"Freq of 180 deg phase (Hz)\" = 60.0\nParameter \"All-pass Q\" = 1.0"
      "rbj" none none = [] := by
  refine ⟨fun _ _ _ => rfl, rfl, by decide, by decide⟩

/-- Claim C10: when the first occurrence of the end phrase precedes the
first occurrence of the start phrase, the extractor returns the empty
string (an empty slice, trimmed), the parse stage treats that falsy
value exactly like an absent shared block (no shared records), and the
conversion — total in this model, so no error is raised — is
independent of combine_shared and writes no standalone shared file. -/
theorem claimC10 (content q_type : String) (inc exc : Option (List String)) (i j : Nat)
    (hi : pyFind content "Shared sub channel:" = some i)
    (hj : pyFind content "End shared sub channel" = some j)
    (hji : j < i) :
    extract_shared_sub_block content = some "" ∧
    (parse_mso_file content q_type inc exc).2 = [] ∧
    convert_mso_to_storm_audio content q_type inc exc true =
      convert_mso_to_storm_audio content q_type inc exc false ∧
    ∀ b : Bool, (convert_mso_to_storm_audio content q_type inc exc b).countP
      (fun w => (w.filename == "shared_sub_filters.txt") && (w.channel == "Shared Sub")) = 0 := by
  have e1 : extract_shared_sub_block content = some "" := by
    simp only [extract_shared_sub_block, hi, hj]
    rw [Nat.sub_eq_zero_of_le (Nat.le_of_lt hji)]
    simp only [List.take_zero]
    decide
  have e2 : (parse_mso_file content q_type inc exc).2 = [] := by
    simp only [parse_mso_file, e1]
    rw [show ("" : String).isEmpty = true from rfl]
    simp
  refine ⟨e1, e2, ?e3, ?e4⟩
  case e3 => simp [convert_mso_to_storm_audio, e2]
  case e4 =>
    intro b
    simp only [convert_mso_to_storm_audio]
    rw [List.countP_append, countP_filterMap_eq_zero]
    · simp [e2]
    · intro p w hw
      split at hw
      · exact absurd hw (by simp)
      · split at hw <;> rw [Option.some_inj] at hw <;> rw [← hw] <;>
          exact sharedPred_channel_write p.1

/-- Witness for C10 at a concrete document whose end phrase (position
0) precedes its start phrase (position 25). -/
theorem claimC10_witness :
    pyFind "End shared sub channelxyzShared sub channel:" "Shared sub channel:" = some 25 ∧
    pyFind "End shared sub channelxyzShared sub channel:" "End shared sub channel" = some 0 ∧
    extract_shared_sub_block "End shared sub channelxyzShared sub channel:" = some "" ∧
    (parse_mso_file "End shared sub channelxyzShared sub channel:" "rbj" none none).2 = [] :=
  ⟨by decide, by decide,
    (claimC10 "End shared sub channelxyzShared sub channel:" "rbj" none none 25 0
      (by decide) (by decide) (by decide)).1,
    (claimC10 "End shared sub channelxyzShared sub channel:" "rbj" none none 25 0
      (by decide) (by decide) (by decide)).2.1⟩
